import Mathlib

/-!
Verification development for the Vaulta voice-banking orchestrator.

The definitions below are a shallow embedding of the Python source of the
repository (apps/api/app/...).  Python strings are modelled as `String`
(lists of characters), regular-expression passes as explicit left-to-right
scanners with word-boundary bookkeeping, machine timestamps as `Nat`,
external collaborators (identity verifier, LLM classifier, card-blocking
API) as function parameters, and the in-memory session dictionary as an
association list with distinct keys.  Scanners that skip a variable number
of characters per step take a fuel argument (initialised to the text length,
which each step strictly exceeds the consumption of) so that all definitions
reduce in the kernel.
-/

set_option maxRecDepth 10000

/-! ## Character and string helpers (Python `re` semantics, ASCII) -/

/-- Python `\w` on ASCII text: letters, digits and underscore. -/
def isWordChar (c : Char) : Bool := c.isAlphanum || c == '_'

/-- Python `\s` character class. -/
def pyIsSpace (c : Char) : Bool :=
  c == ' ' || c == '\t' || c == '\n' || c == '\r' || c == '\x0b' || c == '\x0c'

/-- A word boundary holds before the current position: we are at the start of
the text or the previous character is a non-word character (the current
character being a word character is checked by the caller). -/
def bdry : Option Char → Bool
  | none => true
  | some c => !isWordChar c

/-- A word boundary holds after a match ending here: end of text or a
non-word character follows. -/
def headNonWord : List Char → Bool
  | [] => true
  | c :: _ => !isWordChar c

/-- Python `str.lower` (ASCII). -/
def toLowerStr (s : String) : String := ⟨s.data.map Char.toLower⟩

/-- Python `str.strip`. -/
def pyStrip (s : String) : String :=
  ⟨((s.data.dropWhile pyIsSpace).reverse.dropWhile pyIsSpace).reverse⟩

/-- Python `needle in hay` on lists of characters. -/
def isSubList : List Char → List Char → Bool
  | n, [] => n.isEmpty
  | n, c :: rest => n.isPrefixOf (c :: rest) || isSubList n rest

/-- Python `needle in hay` on strings (plain substring test). -/
def isSubstr (needle hay : String) : Bool := isSubList needle.data hay.data

/-- Case-insensitive literal prefix match (Python `re.IGNORECASE`). -/
def ciIsPrefixOf : List Char → List Char → Bool
  | [], _ => true
  | _ :: _, [] => false
  | a :: as, b :: bs => (a.toLower == b.toLower) && ciIsPrefixOf as bs

/-! ## `app/core/security.py`: `redact_pin` and the standalone-PIN detector -/

/-- Scanner for `re.sub(r'\b\d\x7b4\x7d\b', '****', text)`: at each position,
if a word boundary precedes, the next four characters are digits and a word
boundary follows, the four digits are replaced by `****` and scanning resumes
after the match; otherwise the character is emitted unchanged. -/
def redactPinAux (prev : Option Char) : List Char → List Char
  | c1 :: c2 :: c3 :: c4 :: rest =>
    if bdry prev && c1.isDigit && c2.isDigit && c3.isDigit && c4.isDigit && headNonWord rest then
      '*' :: '*' :: '*' :: '*' :: redactPinAux (some c4) rest
    else
      c1 :: redactPinAux (some c1) (c2 :: c3 :: c4 :: rest)
  | l => l

/-- `redact_pin` from `app/core/security.py`. -/
def redact_pin (text : String) : String := ⟨redactPinAux none text.data⟩

/-- Does the text contain a word-boundary-delimited run of exactly four
digits (a "standalone 4-digit group", i.e. a match of `\b\d\x7b4\x7d\b`)? -/
def hasStandalone4Aux (prev : Option Char) : List Char → Bool
  | c1 :: c2 :: c3 :: c4 :: rest =>
    (bdry prev && c1.isDigit && c2.isDigit && c3.isDigit && c4.isDigit && headNonWord rest)
      || hasStandalone4Aux (some c1) (c2 :: c3 :: c4 :: rest)
  | _ => false

/-- Whether a string contains a standalone 4-digit group. -/
def hasStandalone4 (s : String) : Bool := hasStandalone4Aux none s.data

/-! ## `app/core/security.py`: the full `redact_sensitive_text` pipeline -/

/-- One `[:#-]?` step: consume a single optional separator character. -/
def stripPunct : List Char → List Char
  | [] => []
  | c :: r => if c == ':' || c == '#' || c == '-' then r else c :: r

/-- `\s*[:#-]?\s*`: optional spaces, optional separator, optional spaces. -/
def sepConsume (l : List Char) : List Char :=
  (stripPunct (l.dropWhile pyIsSpace)).dropWhile pyIsSpace

/-- `(?:\d\D*)\x7bn\x7d` with a greedy `\D*`: each round requires a digit and
then consumes every following non-digit.  Returns the text after the match. -/
def digitGroups : Nat → List Char → Option (List Char)
  | 0, l => some l
  | _ + 1, [] => none
  | n + 1, c :: r =>
    if c.isDigit then digitGroups n (r.dropWhile (fun x => !x.isDigit)) else none

/-- `(?:\s*[:#-]?\s*(?:\d\D*)\x7b4\x7d)` — the digit tail shared by the
labeled-PIN and labeled-customer-id redaction patterns. -/
def sepThenDigits (l : List Char) : Option (List Char) :=
  digitGroups 4 (sepConsume l)

/-- `re.sub` of `\bpin\b|\bping\b` to `PIN` with `re.IGNORECASE` (first
pass of `redact_sensitive_text`). -/
def pinWordF : Nat → Option Char → List Char → List Char
  | 0, _, l => l
  | _ + 1, _, [] => []
  | fuel + 1, prev, c :: rest =>
    if bdry prev && ciIsPrefixOf ['p', 'i', 'n'] (c :: rest) && headNonWord (rest.drop 2) then
      'P' :: 'I' :: 'N' :: pinWordF fuel (some 'n') (rest.drop 2)
    else if bdry prev && ciIsPrefixOf ['p', 'i', 'n', 'g'] (c :: rest) && headNonWord (rest.drop 3) then
      'P' :: 'I' :: 'N' :: pinWordF fuel (some 'g') (rest.drop 3)
    else c :: pinWordF fuel (some c) rest

/-- `re.sub` of `\bPIN\b(?:\s*[:#-]?\s*(?:\d\D*)\x7b4\x7d)` to `PIN ****`
with `re.IGNORECASE` (second pass of `redact_sensitive_text`). -/
def pinLabeledF : Nat → Option Char → List Char → List Char
  | 0, _, l => l
  | _ + 1, _, [] => []
  | fuel + 1, prev, c :: rest =>
    if bdry prev && ciIsPrefixOf ['p', 'i', 'n'] (c :: rest) && headNonWord (rest.drop 2) then
      match sepThenDigits (rest.drop 2) with
      | some rest2 =>
        'P' :: 'I' :: 'N' :: ' ' :: '*' :: '*' :: '*' :: '*' :: pinLabeledF fuel (some '*') rest2
      | none => c :: pinLabeledF fuel (some c) rest
    else c :: pinLabeledF fuel (some c) rest

/-- Case-insensitive match of one of the customer-id labels
`customer id|customer_id|cust id` (in pattern order), returning its length. -/
def custLabelMatch (l : List Char) : Option Nat :=
  if ciIsPrefixOf "customer id".data l then some 11
  else if ciIsPrefixOf "customer_id".data l then some 11
  else if ciIsPrefixOf "cust id".data l then some 7
  else none

/-- `re.sub` of `\b(customer id|customer_id|cust id)\b(?:\s*[:#-]?\s*(?:\d\D*)\x7b4\x7d)`
to `\1 ****` with `re.IGNORECASE` (third pass of `redact_sensitive_text`);
the matched label is kept verbatim and the digit tail becomes `****`. -/
def custLabeledF : Nat → Option Char → List Char → List Char
  | 0, _, l => l
  | _ + 1, _, [] => []
  | fuel + 1, prev, c :: rest =>
    match custLabelMatch (c :: rest) with
    | some k =>
      if bdry prev && headNonWord ((c :: rest).drop k) then
        match sepThenDigits ((c :: rest).drop k) with
        | some rest2 =>
          (c :: rest).take k ++ ' ' :: '*' :: '*' :: '*' :: '*' :: custLabeledF fuel (some '*') rest2
        | none => c :: custLabeledF fuel (some c) rest
      else c :: custLabeledF fuel (some c) rest
    | none => c :: custLabeledF fuel (some c) rest

/-- `_mask` inside `mask_long_numbers`: keep the last four characters, star
the rest. -/
def maskNum (num : List Char) : List Char :=
  if num.length ≤ 4 then "****".data
  else List.replicate (num.length - 4) '*' ++ num.drop (num.length - 4)

/-- `redact_customer_ids`: `re.sub` of
`\b(customer id|customer_id|cust id)\s*[:#-]?\s*(\d\x7b4,10\x7d)\b` to
`label ****` with `re.IGNORECASE`. -/
def redactCustIdsF : Nat → Option Char → List Char → List Char
  | 0, _, l => l
  | _ + 1, _, [] => []
  | fuel + 1, prev, c :: rest =>
    match custLabelMatch (c :: rest) with
    | some k =>
      let l3 := sepConsume ((c :: rest).drop k)
      let run := l3.takeWhile Char.isDigit
      if bdry prev && 4 ≤ run.length && run.length ≤ 10 && headNonWord (l3.drop run.length) then
        (c :: rest).take k ++ ' ' :: '*' :: '*' :: '*' :: '*' ::
          redactCustIdsF fuel (some '*') (l3.drop run.length)
      else c :: redactCustIdsF fuel (some c) rest
    | none => c :: redactCustIdsF fuel (some c) rest

/-- `mask_long_numbers`: `re.sub` of `\b\d\x7b8,16\x7d\b` applying `_mask`. -/
def maskLongF : Nat → Option Char → List Char → List Char
  | 0, _, l => l
  | _ + 1, _, [] => []
  | fuel + 1, prev, c :: rest =>
    let run := (c :: rest).takeWhile Char.isDigit
    if bdry prev && 8 ≤ run.length && run.length ≤ 16
        && headNonWord ((c :: rest).drop run.length) then
      maskNum run ++ maskLongF fuel (some '*') ((c :: rest).drop run.length)
    else c :: maskLongF fuel (some c) rest

/-- `redact_customer_ids` from `app/core/security.py`. -/
def redact_customer_ids (text : String) : String :=
  ⟨redactCustIdsF text.data.length none text.data⟩

/-- `mask_long_numbers` from `app/core/security.py`. -/
def mask_long_numbers (text : String) : String :=
  ⟨maskLongF text.data.length none text.data⟩

/-- `redact_sensitive_text` from `app/core/security.py`: the redaction passes
in source order (PIN word normalisation, labeled PIN with possibly spaced
digits, labeled customer id with possibly spaced digits, standalone 4-digit
groups, labeled customer ids, long numbers). -/
def redact_sensitive_text (text : String) : String :=
  if text = "" then text
  else
    let t1 : List Char := pinWordF text.data.length none text.data
    let t2 : List Char := pinLabeledF t1.length none t1
    let t3 : List Char := custLabeledF t2.length none t2
    let t4 := redact_pin ⟨t3⟩
    let t5 := redact_customer_ids t4
    mask_long_numbers t5


/-! ## `app/core/voice_utils.py`: `normalize_spoken_digits` -/

/-- Scanner for `re.sub(pattern, digit, text)` where `pattern` is a single
spoken-number word wrapped in word boundaries: each word-bounded occurrence
of `w` is replaced by `d`. -/
def wordSubF (w d : List Char) : Nat → Option Char → List Char → List Char
  | 0, _, l => l
  | _ + 1, _, [] => []
  | fuel + 1, prev, c :: rest =>
    if bdry prev && w.isPrefixOf (c :: rest) && headNonWord ((c :: rest).drop w.length)
        && !w.isEmpty then
      d ++ wordSubF w d fuel (some (w.getLastD c)) ((c :: rest).drop w.length)
    else c :: wordSubF w d fuel (some c) rest

/-- One `re.sub(r'\b' + word + r'\b', digit, text)` pass. -/
def wordSub (w d : String) (s : String) : String := ⟨wordSubF w.data d.data s.data.length none s.data⟩

/-- `WORD_TO_DIGIT` from `app/core/voice_utils.py`, in insertion order. -/
def WORD_TO_DIGIT : List (String × String) :=
  [("zero", "0"), ("oh", "0"), ("o", "0"),
   ("one", "1"), ("won", "1"),
   ("two", "2"), ("to", "2"), ("too", "2"),
   ("three", "3"), ("tree", "3"),
   ("four", "4"), ("for", "4"), ("fore", "4"),
   ("five", "5"),
   ("six", "6"), ("sex", "6"),
   ("seven", "7"),
   ("eight", "8"), ("ate", "8"),
   ("nine", "9"), ("niner", "9"),
   ("thousand", "000"),
   ("hundred", "00")]

/-- `normalize_spoken_digits` from `app/core/voice_utils.py`: lowercase, then
replace each spoken-number word by its digits, one `re.sub` pass per
dictionary entry in insertion order. -/
def normalize_spoken_digits (text : String) : String :=
  if text = "" then text
  else WORD_TO_DIGIT.foldl (fun acc p => wordSub p.1 p.2 acc) (toLowerStr text)


/-! ## `app/core/security.py`: `_digits_after_label` and `extract_credentials` -/

/-- `re.search` for a word-bounded label alternation: scan left to right, at
each position try the alternatives in pattern order (case-insensitively, with
a word boundary on both sides) and return the text after the first match. -/
def searchLabel (alts : List (List Char)) : Option Char → List Char → Option (List Char)
  | _, [] => none
  | prev, c :: rest =>
    match (if bdry prev then
        alts.findSome? (fun a =>
          if ciIsPrefixOf a (c :: rest) && headNonWord ((c :: rest).drop a.length) then
            some ((c :: rest).drop a.length)
          else none)
      else none) with
    | some after => some after
    | none => searchLabel alts (some c) rest

/-- The stop keywords of the `_digits_after_label` tail pattern
`(?:[.,?!]*(?:\s+(?:and|pin|customer|id|cust|my|the|a)\b|$))`. -/
def tailKeywords : List (List Char) :=
  ["and".data, "pin".data, "customer".data, "id".data, "cust".data, "my".data,
   "the".data, "a".data]

/-- Tail of the `_digits_after_label` pattern: optional `.,?!` punctuation,
then either whitespace followed by a stop keyword at a word boundary, or the
end of the text. -/
def tailMatch (l : List Char) : Bool :=
  let l1 := l.dropWhile (fun c => c == '.' || c == ',' || c == '?' || c == '!')
  if l1.isEmpty then true
  else
    let l2 := l1.dropWhile pyIsSpace
    !(l1.takeWhile pyIsSpace).isEmpty
      && tailKeywords.any (fun kw => ciIsPrefixOf kw l2 && headNonWord (l2.drop kw.length))

/-- The lazy group `([0-9\s]+?)` of `_digits_after_label`: the shortest
non-empty prefix of digit/space characters after which the tail pattern
matches. -/
def lazyDigitGroup : List Char → List Char → Option (List Char)
  | [], _ => none
  | c :: rest, acc =>
    if c.isDigit || pyIsSpace c then
      if tailMatch rest then some (acc ++ [c]) else lazyDigitGroup rest (acc ++ [c])
    else none

/-- `(?:is\s+)?`: consume a literal `is` when it is followed by at least one
whitespace character, together with that whitespace. -/
def consumeIsOpt (l : List Char) : List Char :=
  match l with
  | a :: b :: rest =>
    if a.toLower == 'i' && b.toLower == 's' && !(rest.takeWhile pyIsSpace).isEmpty then
      rest.dropWhile pyIsSpace
    else l
  | _ => l

/-- `''.join(digits[:10])` over `re.findall(r'\d', group)`, or `None` when
the group holds no digit. -/
def digitsFromGroup (g : List Char) : Option String :=
  let ds := (g.filter Char.isDigit).take 10
  if ds.isEmpty then none else some ⟨ds⟩

/-- `_digits_after_label` from `app/core/security.py` for a label
alternation: find the label, then match
`\s*(?:is\s+)?([0-9\s]+?)(?:[.,?!]*(?:\s+(?:and|pin|customer|id|cust|my|the|a)\b|$))`
at the position after it and collect up to ten digits of the group. -/
def digitsAfterLabel (alts : List (List Char)) (t : List Char) : Option String :=
  match searchLabel alts none t with
  | none => none
  | some after =>
    let a2 := consumeIsOpt (after.dropWhile pyIsSpace)
    match lazyDigitGroup a2 [] with
    | some g => digitsFromGroup g
    | none => none

/-- The `\bpin\s+(?:is\s+)?(\d+)` half of the co-occurrence pattern,
applied right after a candidate `pin` occurrence. -/
def pinTailDigits (after : List Char) : Option String :=
  if (after.takeWhile pyIsSpace).isEmpty then none
  else
    let a2 := consumeIsOpt (after.dropWhile pyIsSpace)
    let ds := a2.takeWhile Char.isDigit
    if ds.isEmpty then none else some ⟨ds⟩

/-- The lazy `.*?\bpin\s+(?:is\s+)?(\d+)` search: find the first position
where the `pin` half matches. -/
def scanForPin : Option Char → List Char → Option String
  | _, [] => none
  | prev, c :: rest =>
    match (if bdry prev && ciIsPrefixOf ['p', 'i', 'n'] (c :: rest) then
        pinTailDigits (rest.drop 2)
      else none) with
    | some d => some d
    | none => scanForPin (some c) rest

/-- The part of the co-occurrence pattern after the literal `id`:
`\s+(?:is\s+)?(\d+).*?\bpin\s+(?:is\s+)?(\d+)`. -/
def idTail (after : List Char) : Option (String × String) :=
  if (after.takeWhile pyIsSpace).isEmpty then none
  else
    let a2 := consumeIsOpt (after.dropWhile pyIsSpace)
    let ds := a2.takeWhile Char.isDigit
    if ds.isEmpty then none
    else
      match scanForPin (some (ds.getLastD ' ')) (a2.drop ds.length) with
      | some p => some (⟨ds⟩, p)
      | none => none

/-- `re.search(r'\bid\s+(?:is\s+)?(\d+).*?\bpin\s+(?:is\s+)?(\d+)', text,
re.IGNORECASE)`: leftmost `id` occurrence whose tail completes. -/
def searchIdPin : Option Char → List Char → Option (String × String)
  | _, [] => none
  | prev, c :: rest =>
    match (if bdry prev && ciIsPrefixOf ['i', 'd'] (c :: rest) then
        idTail (rest.drop 1)
      else none) with
    | some r => some r
    | none => searchIdPin (some c) rest

/-- `re.findall(r'\b\d\x7b4\x7d\b', text)`: all standalone 4-digit groups in
order, non-overlapping. -/
def findAll4 (prev : Option Char) : List Char → List String
  | c1 :: c2 :: c3 :: c4 :: rest =>
    if bdry prev && c1.isDigit && c2.isDigit && c3.isDigit && c4.isDigit && headNonWord rest then
      (⟨[c1, c2, c3, c4]⟩ : String) :: findAll4 (some c4) rest
    else findAll4 (some c1) (c2 :: c3 :: c4 :: rest)
  | _ => []

/-- Python `list.remove`: drop the first occurrence. -/
def removeFirst : List String → String → List String
  | [], _ => []
  | a :: rest, x => if a == x then rest else a :: removeFirst rest x

/-- The label alternation `\b(customer id|customer_id|cust id|id)\b`. -/
def idLabelAlts : List (List Char) :=
  ["customer id".data, "customer_id".data, "cust id".data, "id".data]

/-- The label alternation `\bpin\b|\bping\b`. -/
def pinLabelAlts : List (List Char) := ["pin".data, "ping".data]

/-- `extract_credentials` from `app/core/security.py`: normalise spoken
digits, then try labeled extraction, then the `id <n> ... pin <n>`
co-occurrence pattern, then the standalone 4-digit fallback. -/
def extract_credentials (text : String) : Option String × Option String :=
  if text = "" then (none, none)
  else
    let t := (normalize_spoken_digits text).data
    let customer_id0 := digitsAfterLabel idLabelAlts t
    let pin0 := digitsAfterLabel pinLabelAlts t
    let pin1 := match pin0 with
      | some p => if p.length > 4 then some (⟨p.data.take 4⟩ : String) else some p
      | none => none
    let step2 : Option String × Option String :=
      if customer_id0.isNone || pin1.isNone then
        match searchIdPin none t with
        | some (g1, g2) =>
          (if customer_id0.isNone then some g1 else customer_id0,
           if pin1.isNone then
             some (if g2.length > 4 then (⟨g2.data.take 4⟩ : String) else g2)
           else pin1)
        | none => (customer_id0, pin1)
      else (customer_id0, pin1)
    let customer_id := step2.1
    let pin := step2.2
    if customer_id.isNone || pin.isNone then
      let seqs0 := findAll4 none t
      let seqs := match pin with
        | some p => if seqs0.contains p then removeFirst seqs0 p else seqs0
        | none => seqs0
      if !seqs.isEmpty then
        if customer_id.isNone then
          if seqs.length > 1 && pin.isNone then (some (seqs.headD ""), some (seqs.getD 1 ""))
          else (some (seqs.headD ""), pin)
        else if pin.isNone then (customer_id, some (seqs.headD ""))
        else (customer_id, pin)
      else (customer_id, pin)
    else (customer_id, pin)


/-! ## `app/agents/state.py`: turn state --------------------------------- -/

/-- The role of a conversation message (LangChain message type). -/
inductive Role
  | human
  | ai
  deriving DecidableEq, Repr

/-- One conversation message. -/
structure Message where
  role : Role
  content : String
  deriving DecidableEq, Repr

/-- A staged irreversible operation (`pending_action` dict), e.g.
`\x7b"type": "block_card", "card_id": "CARD_001", "reason": "lost",
"description": "block card ending 0001"\x7d`. -/
structure PendingAction where
  type_ : String
  card_id : String
  reason : String
  description : String
  deriving DecidableEq, Repr

/-- The per-turn auth outcome dict built by `_process_auth_attempt`. -/
structure AuthOutcome where
  attempted : Bool := false
  success : Option Bool := none
  remaining_attempts : Option Nat := none
  locked : Bool := false
  needs_customer_id : Bool := false
  needs_pin : Bool := false
  deriving DecidableEq, Repr

/-- The turn-local `metadata` dict of `AgentState`; absent keys read as
falsy via `.get`, which the defaults model. -/
structure Metadata where
  auth : AuthOutcome := {}
  awaiting_confirmation : Bool := false
  asked_for_confirmation : Bool := false
  lock_flow : Bool := false
  force_reroute : Bool := false
  small_talk : Option String := none
  timestamp : Nat := 0
  deriving DecidableEq, Repr

/-- `AgentState` from `app/agents/state.py`. -/
structure AgentState where
  messages : List Message := []
  customer_id : Option String := none
  verified : Bool := false
  current_flow : Option String := none
  original_intent : Option String := none
  pending_action : Option PendingAction := none
  session_id : String := ""
  requires_human : Bool := false
  metadata : Metadata := {}
  deriving DecidableEq, Repr

/-! ## `app/services/session_manager.py`: sessions and the store -/

/-- `SessionState` from `app/services/session_manager.py` (a dataclass; the
defaults mirror the field defaults, with timestamps as `Nat` seconds). -/
structure SessionState where
  session_id : String
  customer_id : Option String := none
  verified : Bool := false
  created_at : Nat := 0
  last_activity : Nat := 0
  auth_attempts : Nat := 0
  conversation_history : List Message := []
  last_intent_message : Option String := none
  pending_customer_id : Option String := none
  current_flow : Option String := none
  original_intent : Option String := none
  pending_action : Option PendingAction := none
  awaiting_confirmation : Bool := false
  requires_human : Bool := false
  locked : Bool := false
  deriving DecidableEq, Repr

/-- The `SessionManager`: an in-memory dict of sessions plus the configured
idle timeout (`session_timeout`, default 300 seconds).  The dict is modelled
as an association list whose keys are distinct. -/
structure SessionManager where
  sessions : List (String × SessionState)
  session_timeout : Nat
  deriving Repr

/-- `SessionManager.get_session`. -/
def get_session (m : SessionManager) (sid : String) : Option SessionState :=
  (m.sessions.find? (fun p => p.1 == sid)).map (·.2)

/-- The eviction condition of `cleanup_expired_sessions`:
`current_time - session.last_activity > self.session_timeout`. -/
def isExpired (timeout now : Nat) (s : SessionState) : Bool :=
  now - s.last_activity > timeout

/-- `SessionManager.cleanup_expired_sessions`: remove every session whose
`last_activity` is older than the timeout and return the count evicted. -/
def cleanup_expired_sessions (m : SessionManager) (now : Nat) : SessionManager × Nat :=
  let expired := m.sessions.filter (fun p => isExpired m.session_timeout now p.2)
  ({ m with sessions := m.sessions.filter (fun p => !isExpired m.session_timeout now p.2) },
   expired.length)

/-- `SessionManager.reset_session` for a single id: delete the session,
returning 1 when it existed and 0 otherwise. -/
def reset_session (m : SessionManager) (sid : String) : SessionManager × Nat :=
  if (m.sessions.find? (fun p => p.1 == sid)).isSome then
    ({ m with sessions := m.sessions.filter (fun p => !(p.1 == sid)) }, 1)
  else (m, 0)

/-! ## `app/api/vapi_routes.py`: `_process_auth_attempt` -/

/-- The configured `Settings.MAX_AUTH_ATTEMPTS` default. -/
def MAX_AUTH_ATTEMPTS : Nat := 3

/-- `_process_auth_attempt` from `app/api/vapi_routes.py`, parametrised by
the external `verify_identity` collaborator and the configured maximum
number of attempts.  The credentials argument is the result of
`extract_credentials(raw_text)` on the turn input.  Returns the updated
session, the auth outcome dict, and whether the verifier was called. -/
def process_auth_attempt (verify : String → String → Bool) (maxAttempts : Nat)
    (s : SessionState) (creds : Option String × Option String) :
    SessionState × AuthOutcome × Bool :=
  let auth : AuthOutcome :=
    { attempted := false, success := none, remaining_attempts := none,
      locked := s.locked, needs_customer_id := false, needs_pin := false }
  if s.verified then (s, auth, false)
  else
    let cid0 := creds.1
    let pin0 := creds.2
    -- Treat single input as PIN when a customer id is already pending
    let cid1 := if s.pending_customer_id.isSome && cid0.isSome && pin0.isNone
      then s.pending_customer_id else cid0
    let pin1 := if s.pending_customer_id.isSome && cid0.isSome && pin0.isNone
      then cid0 else pin0
    if cid1.isSome && pin1.isNone then
      ({ s with pending_customer_id := cid1 }, { auth with needs_pin := true }, false)
    else
      let cid2 := if pin1.isSome && cid1.isNone && s.pending_customer_id.isSome
        then s.pending_customer_id else cid1
      if pin1.isSome && cid2.isNone then
        (s, { auth with needs_customer_id := true }, false)
      else
        match cid2, pin1 with
        | some cid, some pin =>
          let auth := { auth with attempted := true }
          if s.locked || s.auth_attempts ≥ maxAttempts then
            ({ s with locked := true }, { auth with locked := true, success := some false }, false)
          else if verify cid pin then
            let s2 := { s with verified := true, customer_id := some cid, auth_attempts := 0, pending_customer_id := none }
            (s2, { auth with success := some true }, true)
          else
            let attempts := s.auth_attempts + 1
            let remaining := maxAttempts - attempts
            let s2 := { s with auth_attempts := attempts, locked := if remaining = 0 then true else s.locked }
            let auth2 := { auth with success := some false, remaining_attempts := some remaining, locked := if remaining = 0 then true else s.locked }
            (s2, auth2, true)
        | _, _ => (s, auth, false)

/-- Folding `_process_auth_attempt` over a sequence of turns (each turn
being the extracted credential pair of its input). -/
def process_auth_turns (verify : String → String → Bool) (maxAttempts : Nat)
    (turns : List (Option String × Option String)) (s : SessionState) : SessionState :=
  turns.foldl (fun st c => (process_auth_attempt verify maxAttempts st c).1) s

/-- A fresh session as created by `get_or_create_session`. -/
def freshSession (sid : String) (now : Nat) : SessionState :=
  { session_id := sid, created_at := now, last_activity := now }

/-! ## `app/agents/nodes/confirmation.py` and `graph.should_confirm` -/

/-- The structured error of `app/core/exceptions.py` raised by the
confirmation node on an unverified session. -/
inductive TurnError
  | verificationRequired
  deriving DecidableEq, Repr

/-- Which branch `handle_confirmation` took. -/
inductive ConfirmOutcome
  | executed
  | cancelled
  | reprompted
  | skipped
  deriving DecidableEq, Repr

/-- The affirmative keywords checked (as substrings) by
`handle_confirmation`. -/
def affirmWords : List String := ["yes", "confirm", "proceed", "sure"]

/-- The negative keywords checked (as substrings) by `handle_confirmation`. -/
def negativeWords : List String := ["no", "cancel", "stop", "wait"]

/-- The latest human message content, or the empty string
(`user_messages[-1].content if user_messages else ""`). -/
def lastHumanContent (msgs : List Message) : String :=
  match (msgs.filter (fun m => m.role == Role.human)).getLast? with
  | some m => m.content
  | none => ""

/-- The re-prompt text of the unclear branch of `handle_confirmation`. -/
def repromptText (pending : PendingAction) : String :=
  "I need a clear confirmation. Do you want to " ++ pending.description ++
    "? Please say YES to proceed or NO to cancel."

/-- The cancellation text of the negative branch of `handle_confirmation`. -/
def cancelText (pending : PendingAction) : String :=
  "Okay, I\x27ve cancelled the " ++ pending.description ++
    ". Your card remains active. Is there anything else I can help with?"

/-- `handle_confirmation` from `app/agents/nodes/confirmation.py`,
parametrised by the external `block_card` collaborator (card id and reason
to result text).  Raising `VerificationRequiredError` is modelled by
`Except.error`; otherwise the node returns the updated state together with
which branch ran. -/
def handle_confirmation (blockCardFn : String → String → String) (st : AgentState) :
    Except TurnError (AgentState × ConfirmOutcome) :=
  match st.pending_action with
  | none => .ok (st, .skipped)
  | some pending =>
    if !st.verified then .error .verificationRequired
    else
      let latest := toLowerStr (lastHumanContent st.messages)
      if affirmWords.any (fun w => isSubstr w latest) then
        let resp := if pending.type_ == "block_card" then blockCardFn pending.card_id pending.reason else "Action completed successfully."
        let st2 := { st with pending_action := none, messages := [⟨Role.ai, resp⟩], metadata := { st.metadata with awaiting_confirmation := false, asked_for_confirmation := false } }
        .ok (st2, .executed)
      else if negativeWords.any (fun w => isSubstr w latest) then
        let st2 := { st with pending_action := none, messages := [⟨Role.ai, cancelText pending⟩], metadata := { st.metadata with awaiting_confirmation := false, asked_for_confirmation := false } }
        .ok (st2, .cancelled)
      else
        let st2 := { st with messages := [⟨Role.ai, repromptText pending⟩], metadata := { st.metadata with awaiting_confirmation := true, asked_for_confirmation := false } }
        .ok (st2, .reprompted)

/-- The routing answer of `graph.should_confirm`. -/
inductive ConfirmRoute
  | confirm
  | execute
  deriving DecidableEq, Repr

/-- `should_confirm` from `app/agents/graph.py`: route to the confirmation
node only for a pending action of a confirmable type, not on the turn that
just asked (`asked_for_confirmation`), and only when a reply is awaited
(`awaiting_confirmation`). -/
def should_confirm (st : AgentState) : ConfirmRoute :=
  match st.pending_action with
  | some pending =>
    if pending.type_ == "block_card" || pending.type_ == "close_account" then
      if st.metadata.asked_for_confirmation then .execute
      else if st.metadata.awaiting_confirmation then .confirm
      else .execute
    else .execute
  | none => .execute

/-! ## `app/agents/nodes/intent_router.py`: `route_intent` -/

/-- The banking-intent keywords that suppress the small-talk check
(substring match). -/
def intentKeywords : List String :=
  ["card", "atm", "lost", "stolen", "declined", "cash not dispensed",
   "balance", "statement", "transaction", "profile", "address", "recent",
   "open account", "new account", "onboard",
   "login", "otp", "app", "device", "crash",
   "transfer", "bill pay", "beneficiary", "wire", "ach",
   "close account", "closure", "retain"]

/-- The explicit topic-change phrases of the sticky-flow check (substring
match). -/
def topicChangeKeywords : List String :=
  ["actually", "instead", "never mind", "wait", "hold on",
   "let me", "i want to", "can you help me with something else",
   "different", "something else"]

/-- Word-bounded search for one of several phrases: `re.search` of
`\b(p1|p2|...)\b`. -/
def wbSearchAux (phrases : List (List Char)) : Option Char → List Char → Bool
  | _, [] => false
  | prev, c :: rest =>
    (bdry prev && phrases.any (fun p =>
        p.isPrefixOf (c :: rest) && headNonWord ((c :: rest).drop p.length)))
      || wbSearchAux phrases (some c) rest

/-- Word-bounded phrase alternation search on a string. -/
def wbSearch (phrases : List String) (s : String) : Bool :=
  wbSearchAux (phrases.map String.data) none s.data

/-- The greeting pattern `\b(hi|hello|hey|good morning|good afternoon|good evening)\b`. -/
def greetingPhrases : List String :=
  ["hi", "hello", "hey", "good morning", "good afternoon", "good evening"]

/-- The thanks pattern `\b(thank you|thanks|thx|appreciate)\b`. -/
def thanksPhrases : List String := ["thank you", "thanks", "thx", "appreciate"]

/-- The goodbye pattern `\b(bye|goodbye|see you|later)\b`. -/
def goodbyePhrases : List String := ["bye", "goodbye", "see you", "later"]

/-- The help pattern `\b(what can you do|help|services|capabilities)\b`. -/
def helpPhrases : List String := ["what can you do", "help", "services", "capabilities"]

/-- The identity pattern `\b(who are you|what are you|who made you|what (ai )?model)\b`. -/
def identityPhrases : List String :=
  ["who are you", "what are you", "who made you", "what ai model", "what model"]

/-- The fast keyword-routing cascade of `route_intent` followed by the LLM
fallback, parametrised by the external classifier response text. -/
def classifyFlow (llmResp : String → String) (latest : String) (original : String) :
    Option String :=
  if ["card", "atm", "lost", "stolen", "declined", "cash not dispensed"].any (fun kw => isSubstr kw latest) then some "card_issues"
  else if ["balance", "statement", "transaction", "profile", "address", "recent"].any (fun kw => isSubstr kw latest) then some "account_servicing"
  else if ["open account", "new account", "onboard"].any (fun kw => isSubstr kw latest) then some "account_opening"
  else if ["login", "otp", "app", "device", "crash"].any (fun kw => isSubstr kw latest) then some "digital_support"
  else if ["transfer", "bill pay", "beneficiary", "wire", "ach"].any (fun kw => isSubstr kw latest) then some "transfers"
  else if ["close account", "closure", "retain"].any (fun kw => isSubstr kw latest) then some "account_closure"
  else
    let response := toLowerStr (llmResp original)
    if isSubstr "card_issues" response then some "card_issues"
    else if isSubstr "account_servicing" response then some "account_servicing"
    else if isSubstr "account_opening" response then some "account_opening"
    else if isSubstr "digital_support" response then some "digital_support"
    else if isSubstr "transfers" response then some "transfers"
    else if isSubstr "account_closure" response then some "account_closure"
    else none

/-- `route_intent` from `app/agents/nodes/intent_router.py`, parametrised by
the external LLM classifier (mapping the raw latest user message to a
response text).  Small talk is detected only when the lowered, stripped
input has no banking-intent keyword and no digit; an established flow is
kept unless an explicit topic-change phrase appears or a forced reroute is
set; a locked flow or a just-attempted auth with an existing flow also skip
re-routing. -/
def route_intent (llmResp : String → String) (st : AgentState) : AgentState :=
  let humans := st.messages.filter (fun m => m.role == Role.human)
  match humans.getLast? with
  | none => st
  | some m =>
    let latest := pyStrip (toLowerStr m.content)
    let has_intent_keywords := intentKeywords.any (fun kw => isSubstr kw latest)
    let has_digits := latest.data.any Char.isDigit
    if !has_intent_keywords && !has_digits && wbSearch greetingPhrases latest then
      { st with current_flow := none, metadata := { st.metadata with small_talk := some "greeting" } }
    else if !has_intent_keywords && !has_digits && wbSearch thanksPhrases latest then
      { st with current_flow := none, metadata := { st.metadata with small_talk := some "thanks" } }
    else if !has_intent_keywords && !has_digits && wbSearch goodbyePhrases latest then
      { st with current_flow := none, metadata := { st.metadata with small_talk := some "goodbye" } }
    else if !has_intent_keywords && !has_digits && wbSearch helpPhrases latest then
      { st with current_flow := none, metadata := { st.metadata with small_talk := some "help" } }
    else if !has_intent_keywords && !has_digits && wbSearch identityPhrases latest then
      { st with current_flow := none, metadata := { st.metadata with small_talk := some "identity" } }
    else if st.current_flow.isSome && !st.metadata.force_reroute
        && !(topicChangeKeywords.any (fun kw => isSubstr kw latest)) then
      st
    else if st.metadata.lock_flow || (st.metadata.auth.attempted && st.current_flow.isSome) then
      st
    else
      { st with current_flow := classifyFlow llmResp latest m.content }

/-! ## `app/api/vapi_routes.py`: `_run_agent` session/turn-state plumbing -/

/-- `MAX_HISTORY_MESSAGES` from `_run_agent`. -/
def MAX_HISTORY_MESSAGES : Nat := 10

/-- The state-building prelude of `_run_agent` (lines 225-267): truncate the
conversation history, copy the session fields into a fresh `AgentState`,
and, when the user just authenticated while an `original_intent` is stored
and the truncated history holds at most four messages, restore that flow
with routing locked and clear the marker on the session.  `hashId` models
`hash_customer_id`; `now` is the current time used by `update_session`. -/
def build_turn_state (hashId : String → String) (now : Nat) (session : SessionState)
    (sanitized_input : String) (auth : AuthOutcome) : AgentState × SessionState :=
  let history := session.conversation_history
  let history := if history.length > MAX_HISTORY_MESSAGES
    then history.drop (history.length - MAX_HISTORY_MESSAGES) else history
  let base : AgentState :=
    { messages := history ++ [⟨Role.human, sanitized_input⟩],
      customer_id := session.customer_id.map hashId,
      verified := session.verified,
      current_flow := session.current_flow,
      original_intent := session.original_intent,
      pending_action := session.pending_action,
      session_id := session.session_id,
      requires_human := session.requires_human,
      metadata := {} }
  if session.original_intent.isSome && session.verified && history.length ≤ 4 then
    let meta : Metadata := { auth := auth, awaiting_confirmation := session.awaiting_confirmation, asked_for_confirmation := false, lock_flow := true, timestamp := now }
    ({ base with current_flow := session.original_intent, metadata := meta },
     { session with original_intent := none, last_activity := now })
  else
    let meta : Metadata := { auth := auth, awaiting_confirmation := session.awaiting_confirmation, asked_for_confirmation := false, lock_flow := session.awaiting_confirmation || session.pending_action.isSome, timestamp := now }
    ({ base with metadata := meta }, session)

/-- The post-run `original_intent` saving step of `_run_agent` (lines
278-284): when the reply just asked for credentials (it mentions both
`customer id` and `pin`), a flow was classified, and the session is not
verified, store that flow in `original_intent`. -/
def save_original_intent (now : Nat) (session : SessionState) (resultFlow : Option String)
    (lastMessageContent : String) : SessionState :=
  let lm := toLowerStr lastMessageContent
  let is_auth_request := isSubstr "customer id" lm && isSubstr "pin" lm
  if is_auth_request && resultFlow.isSome && !session.verified then
    { session with original_intent := resultFlow, last_activity := now }
  else session

/-- The final `update_session` call of `_run_agent` (lines 286-296): fold
the turn result back into the session; note `locked` is re-asserted from the
session itself. -/
def fold_turn_into_session (now : Nat) (session : SessionState) (result : AgentState)
    (awaiting : Bool) : SessionState :=
  { session with
    verified := result.verified,
    current_flow := result.current_flow,
    pending_action := result.pending_action,
    awaiting_confirmation := awaiting,
    requires_human := result.requires_human,
    conversation_history := result.messages,
    locked := session.locked,
    last_activity := now }

/-- The condition under which `route_intent` classifies the turn as small
talk: no banking-intent keyword, no digit, and one of the five small-talk
patterns matches. -/
def smallTalkDetected (latest : String) : Bool :=
  !(intentKeywords.any (fun kw => isSubstr kw latest)) && !(latest.data.any Char.isDigit)
    && (wbSearch greetingPhrases latest || wbSearch thanksPhrases latest
      || wbSearch goodbyePhrases latest || wbSearch helpPhrases latest
      || wbSearch identityPhrases latest)

/-- Whether a `\b\d\x7b4\x7d\b` match begins at the head of the text. -/
def startsStandalone4 (prev : Option Char) : List Char → Bool
  | c1 :: c2 :: c3 :: c4 :: rest =>
    bdry prev && c1.isDigit && c2.isDigit && c3.isDigit && c4.isDigit && headNonWord rest
  | _ => false


/-! ## Concrete evaluations cross-checked against the Python implementation -/

example : redact_sensitive_text "12345678" = "****5678" := by decide
example : redact_sensitive_text "My PIN is 5678" = "My PIN is ****" := by decide
example : redact_sensitive_text "PIN: 1 2 3 4 ok" = "PIN ****" := by decide
example : redact_sensitive_text "customer id 123456" = "customer id ****56" := by decide
example : redact_sensitive_text "Card 1234 PIN 5678" = "Card **** PIN ****" := by decide
example : redact_sensitive_text "my ping 9876 now" = "my PIN ****" := by decide
example : normalize_spoken_digits "one two three four" = "1 2 3 4" := by decide
example : normalize_spoken_digits "my id is one oh two three" = "my id is 1 0 2 3" := by decide
example : extract_credentials "my id is 1 and pin is 1000" = (some "1", some "1000") := by decide
example : extract_credentials "id is one and pin is one zero zero zero" = (some "1", some "1000") := by decide
example : extract_credentials "id 10 pin 123456" = (some "10", some "1234") := by decide
example : extract_credentials "hello how are you" = (none, none) := by decide
example : extract_credentials "1234" = (some "1234", none) := by decide
example : extract_credentials "1234 5678" = (some "1234", some "5678") := by decide
example : extract_credentials "pin is 9999" = (none, some "9999") := by decide
example : extract_credentials "customer id 42 pin 1111" = (some "42", some "1111") := by decide
example : extract_credentials "my customer id is 7 7 7 7 and my pin is 1 2 3 4" = (some "7777", some "1234") := by decide
example : extract_credentials "id: 55, pin: 4321" = (some "4321", none) := by decide
example : extract_credentials "one two three four" = (none, none) := by decide
example : extract_credentials "i won to tree for" = (none, none) := by decide
example : extract_credentials "block my card 1234 5678" = (some "1234", some "5678") := by decide
example : extract_credentials "pin 1234" = (none, some "1234") := by decide
example : extract_credentials "id 9 9 9 9 pin nine eight seven six" = (some "9999", some "9876") := by decide
example : extract_credentials "cust id 1000 ping 2000" = (some "1000", some "2000") := by decide
example : extract_credentials "my pin is one thousand" = (none, some "1000") := by decide
example : extract_credentials "id is 123456789012 pin 1" = (some "1234567890", some "1") := by decide
example : extract_credentials "5678 is my pin" = (some "5678", none) := by decide
example : extract_credentials "the pin is 12 34" = (none, some "1234") := by decide

/-! ## Helper lemmas about `process_auth_attempt` -/

/-- One auth turn keeps a locked, unverified session locked and unverified. -/
theorem auth_step_locked (verify : String → String → Bool) (maxAttempts : Nat)
    (s : SessionState) (creds : Option String × Option String)
    (hlock : s.locked = true) (hver : s.verified = false) :
    (process_auth_attempt verify maxAttempts s creds).1.locked = true ∧
    (process_auth_attempt verify maxAttempts s creds).1.verified = false := by
  obtain ⟨c, p⟩ := creds
  cases c <;> cases p <;> cases hp : s.pending_customer_id <;>
    simp [process_auth_attempt, hver, hlock, hp]

/-- One auth turn never pushes the attempt counter beyond the maximum. -/
theorem auth_step_attempts_le (verify : String → String → Bool) (maxAttempts : Nat)
    (s : SessionState) (creds : Option String × Option String)
    (hle : s.auth_attempts ≤ maxAttempts) :
    (process_auth_attempt verify maxAttempts s creds).1.auth_attempts ≤ maxAttempts := by
  obtain ⟨c, p⟩ := creds
  cases hs : s.verified
  · cases c <;> cases p <;> cases hp : s.pending_customer_id <;>
      simp [process_auth_attempt, hs, hp, hle] <;>
      split <;> simp_all <;> split <;> simp_all <;> omega
  · simp [process_auth_attempt, hs, hle]

/-- A locked, unverified session stays locked and unverified across any
sequence of auth turns. -/
theorem auth_turns_locked (verify : String → String → Bool) (maxAttempts : Nat)
    (turns : List (Option String × Option String)) (s : SessionState)
    (hlock : s.locked = true) (hver : s.verified = false) :
    (process_auth_turns verify maxAttempts turns s).locked = true ∧
    (process_auth_turns verify maxAttempts turns s).verified = false := by
  induction turns generalizing s with
  | nil => exact ⟨hlock, hver⟩
  | cons t ts ih =>
    have h := auth_step_locked verify maxAttempts s t hlock hver
    simpa [process_auth_turns, List.foldl_cons] using
      ih (process_auth_attempt verify maxAttempts s t).1 h.1 h.2

/-- C1: lock is terminal and monotonic.  Once `locked` is true on an
(unverified) session, every sequence of `_process_auth_attempt` turns keeps
it locked and unverified, and a further attempt with a complete credential
pair that the external verifier would accept still produces
`success = False` without the verifier being called, leaving the session
locked; the end-of-turn session update of `_run_agent` re-asserts the lock
as well.  (Only `SessionManager.reset_session`, which deletes the whole
session from the store, removes the lock.) -/
theorem lock_is_terminal (verify : String → String → Bool) (maxAttempts : Nat)
    (turns : List (Option String × Option String)) (s : SessionState)
    (cid pin : String)
    (hlock : s.locked = true) (hver : s.verified = false)
    (hok : verify cid pin = true) :
    (process_auth_turns verify maxAttempts turns s).locked = true ∧
    (process_auth_turns verify maxAttempts turns s).verified = false ∧
    (∀ (result : AgentState) (awaiting : Bool) (t : Nat),
      (fold_turn_into_session t (process_auth_turns verify maxAttempts turns s)
        result awaiting).locked = true) ∧
    (process_auth_attempt verify maxAttempts s (some cid, some pin)).2.1.success = some false ∧
    (process_auth_attempt verify maxAttempts s (some cid, some pin)).2.2 = false ∧
    (process_auth_attempt verify maxAttempts s (some cid, some pin)).1.locked = true := by
  refine ⟨(auth_turns_locked verify maxAttempts turns s hlock hver).1,
    (auth_turns_locked verify maxAttempts turns s hlock hver).2,
    fun result awaiting t => by
      simp [fold_turn_into_session, (auth_turns_locked verify maxAttempts turns s hlock hver).1],
    ?_, ?_, ?_⟩ <;>
    cases hp : s.pending_customer_id <;>
    simp [process_auth_attempt, hver, hlock, hp]

/-- Witness for `lock_is_terminal` at a concrete locked session, a turn
sequence with correct credentials, and a verifier that accepts them. -/
theorem lock_is_terminal_witness :
    (process_auth_turns (fun _ _ => true) 3 [(some "1", some "1000")]
      { session_id := "s", locked := true }).locked = true ∧
    (process_auth_turns (fun _ _ => true) 3 [(some "1", some "1000")]
      { session_id := "s", locked := true }).verified = false ∧
    (fold_turn_into_session 7
      (process_auth_turns (fun _ _ => true) 3 [(some "1", some "1000")]
        { session_id := "s", locked := true })
      {} false).locked = true ∧
    (process_auth_attempt (fun _ _ => true) 3 { session_id := "s", locked := true }
      (some "1", some "1000")).2.1.success = some false ∧
    (process_auth_attempt (fun _ _ => true) 3 { session_id := "s", locked := true }
      (some "1", some "1000")).2.2 = false ∧
    (process_auth_attempt (fun _ _ => true) 3 { session_id := "s", locked := true }
      (some "1", some "1000")).1.locked = true := by
  have h := lock_is_terminal (fun _ _ => true) 3 [(some "1", some "1000")]
    { session_id := "s", locked := true } "1" "1000" rfl rfl rfl
  exact ⟨h.1, h.2.1, h.2.2.1 {} false 7, h.2.2.2.1, h.2.2.2.2.1, h.2.2.2.2.2⟩

/-- C3: failed-attempt accounting.  For an unverified, unlocked session with
attempts below the configured maximum, a complete credential pair that
fails external verification increments the counter by exactly one, reports
`remaining = max(0, maxAttempts - attempts)` (truncated subtraction), and
sets `locked` exactly when the remaining count is zero, the verifier having
been called; if instead the session is already locked or the attempts have
reached the maximum, the verifier is not called and the outcome is
`locked = True`, `success = False`; and the attempt counter never exceeds
the maximum. -/
theorem auth_attempt_accounting (verify : String → String → Bool) (maxAttempts : Nat)
    (s : SessionState) (cid pin : String)
    (hver : s.verified = false) :
    (s.locked = false → s.auth_attempts < maxAttempts → verify cid pin = false →
      (process_auth_attempt verify maxAttempts s (some cid, some pin)).1.auth_attempts
          = s.auth_attempts + 1 ∧
      (process_auth_attempt verify maxAttempts s (some cid, some pin)).2.1.remaining_attempts
          = some (maxAttempts - (s.auth_attempts + 1)) ∧
      ((process_auth_attempt verify maxAttempts s (some cid, some pin)).1.locked = true
          ↔ maxAttempts - (s.auth_attempts + 1) = 0) ∧
      (process_auth_attempt verify maxAttempts s (some cid, some pin)).2.2 = true) ∧
    (s.locked = true ∨ s.auth_attempts ≥ maxAttempts →
      (process_auth_attempt verify maxAttempts s (some cid, some pin)).2.2 = false ∧
      (process_auth_attempt verify maxAttempts s (some cid, some pin)).1.locked = true ∧
      (process_auth_attempt verify maxAttempts s (some cid, some pin)).2.1.success = some false ∧
      (process_auth_attempt verify maxAttempts s (some cid, some pin)).2.1.locked = true) ∧
    (s.auth_attempts ≤ maxAttempts →
      (process_auth_attempt verify maxAttempts s (some cid, some pin)).1.auth_attempts
          ≤ maxAttempts) := by
  refine ⟨?_, ?_, fun hle => auth_step_attempts_le verify maxAttempts s _ hle⟩
  · intro hlock hlt hfail
    cases hp : s.pending_customer_id <;>
      simp [process_auth_attempt, hver, hlock, hp, hfail, Nat.not_le.2 hlt]
  · intro hor
    have hcond : (s.locked || s.auth_attempts ≥ maxAttempts) = true := by
      rcases hor with h | h
      · simp [h]
      · simp [h]
    cases hp : s.pending_customer_id <;>
      simp [process_auth_attempt, hver, hp, hcond]

/-- Witness for `auth_attempt_accounting`: a fresh unverified session with
one prior failed attempt, max three attempts, and a rejecting verifier. -/
theorem auth_attempt_accounting_witness :
    ({ session_id := "s", auth_attempts := 1 } : SessionState).verified = false ∧
    (({ session_id := "s", auth_attempts := 1 } : SessionState).locked = false →
      ({ session_id := "s", auth_attempts := 1 } : SessionState).auth_attempts < 3 →
      (fun _ _ => false : String → String → Bool) "7" "0000" = false →
      (process_auth_attempt (fun _ _ => false) 3 { session_id := "s", auth_attempts := 1 }
        (some "7", some "0000")).1.auth_attempts = 2 ∧
      (process_auth_attempt (fun _ _ => false) 3 { session_id := "s", auth_attempts := 1 }
        (some "7", some "0000")).2.1.remaining_attempts = some 1 ∧
      ((process_auth_attempt (fun _ _ => false) 3 { session_id := "s", auth_attempts := 1 }
        (some "7", some "0000")).1.locked = true ↔ (1 : Nat) = 0) ∧
      (process_auth_attempt (fun _ _ => false) 3 { session_id := "s", auth_attempts := 1 }
        (some "7", some "0000")).2.2 = true) := by
  constructor
  · rfl
  · intro h1 h2 h3
    exact (auth_attempt_accounting (fun _ _ => false) 3
      { session_id := "s", auth_attempts := 1 } "7" "0000" rfl).1 h1 h2 h3

/-- C5 counterexample: a solo PIN followed by a solo id does not complete
the credential pair.  Starting from a fresh session, the turn carrying only
a PIN leaves the session unchanged (the PIN is not retained, only
`needs_customer_id` is reported), and the following turn carrying only an
id does not contact the verifier (even one that accepts everything): it
merely stores the id as pending and asks for the PIN. -/
theorem credential_merge_vice_versa_fails :
    (process_auth_attempt (fun _ _ => true) 3 (freshSession "s" 0)
        (none, some "1000")).2.1.needs_customer_id = true ∧
    (process_auth_attempt (fun _ _ => true) 3 (freshSession "s" 0)
        (none, some "1000")).1 = freshSession "s" 0 ∧
    (process_auth_attempt (fun _ _ => true) 3
        (process_auth_attempt (fun _ _ => true) 3 (freshSession "s" 0) (none, some "1000")).1
        (some "1", none)).2.1.attempted = false ∧
    (process_auth_attempt (fun _ _ => true) 3
        (process_auth_attempt (fun _ _ => true) 3 (freshSession "s" 0) (none, some "1000")).1
        (some "1", none)).2.2 = false ∧
    (process_auth_attempt (fun _ _ => true) 3
        (process_auth_attempt (fun _ _ => true) 3 (freshSession "s" 0) (none, some "1000")).1
        (some "1", none)).2.1.needs_pin = true ∧
    (process_auth_attempt (fun _ _ => true) 3
        (process_auth_attempt (fun _ _ => true) 3 (freshSession "s" 0) (none, some "1000")).1
        (some "1", none)).1.verified = false := by
  decide

/-- C5 amended: cross-turn credential completion is asymmetric.  For an
unverified session: a solo PIN merges with a pending id and reaches the
verifier (completing the pair); a solo id with no pending id is stored as
`pending_customer_id` with `needs_pin` reported and no verifier contact;
and a solo PIN with no pending id only reports `needs_customer_id`,
leaving the session unchanged and the PIN unretained, so the
previously-solo-PIN direction never completes a pair. -/
theorem credential_merge_asymmetric (verify : String → String → Bool) (maxAttempts : Nat)
    (s : SessionState) (hver : s.verified = false) :
    (∀ p pin, s.pending_customer_id = some p → s.locked = false →
      s.auth_attempts < maxAttempts →
      (process_auth_attempt verify maxAttempts s (none, some pin)).2.1.attempted = true ∧
      (process_auth_attempt verify maxAttempts s (none, some pin)).2.2 = true ∧
      (process_auth_attempt verify maxAttempts s (none, some pin)).2.1.success
          = some (verify p pin)) ∧
    (∀ cid, s.pending_customer_id = none →
      (process_auth_attempt verify maxAttempts s (some cid, none)).1.pending_customer_id
          = some cid ∧
      (process_auth_attempt verify maxAttempts s (some cid, none)).2.1.needs_pin = true ∧
      (process_auth_attempt verify maxAttempts s (some cid, none)).2.1.attempted = false ∧
      (process_auth_attempt verify maxAttempts s (some cid, none)).2.2 = false) ∧
    (∀ pin, s.pending_customer_id = none →
      (process_auth_attempt verify maxAttempts s (none, some pin)).2.1.needs_customer_id
          = true ∧
      (process_auth_attempt verify maxAttempts s (none, some pin)).1 = s ∧
      (process_auth_attempt verify maxAttempts s (none, some pin)).2.2 = false) := by
  refine ⟨?_, ?_, ?_⟩
  · intro p pin hp hlock hlt
    cases hv : verify p pin <;>
      simp [process_auth_attempt, hver, hp, hlock, hv, Nat.not_le.2 hlt]
  · intro cid hp
    simp [process_auth_attempt, hver, hp]
  · intro pin hp
    simp [process_auth_attempt, hver, hp]

/-- Witness for `credential_merge_asymmetric` at concrete sessions: one
with a pending id `9` receiving PIN `1000` under an accepting verifier,
and a fresh one receiving a solo id and a solo PIN. -/
theorem credential_merge_asymmetric_witness :
    (process_auth_attempt (fun _ _ => true) 3
        { session_id := "s", pending_customer_id := some "9" }
        (none, some "1000")).2.1.attempted = true ∧
    (process_auth_attempt (fun _ _ => true) 3
        { session_id := "s", pending_customer_id := some "9" }
        (none, some "1000")).2.1.success = some true ∧
    (process_auth_attempt (fun _ _ => true) 3 (freshSession "t" 0)
        (some "1", none)).1.pending_customer_id = some "1" ∧
    (process_auth_attempt (fun _ _ => true) 3 (freshSession "t" 0)
        (some "1", none)).2.1.needs_pin = true ∧
    (process_auth_attempt (fun _ _ => true) 3 (freshSession "t" 0)
        (none, some "1000")).2.1.needs_customer_id = true := by
  have h1 := credential_merge_asymmetric (fun _ _ => true) 3
    { session_id := "s", pending_customer_id := some "9" } rfl
  have h2 := credential_merge_asymmetric (fun _ _ => true) 3 (freshSession "t" 0) rfl
  have ha := h1.1 "9" "1000" rfl rfl (by decide)
  have hb := h2.2.1 "1" rfl
  have hc := h2.2.2 "1000" rfl
  exact ⟨ha.1, ha.2.2, hb.1, hb.2.1, hc.1⟩

/-- C4: an unverified confirmation attempt is fatal and atomic.  Whenever
the turn state carries a pending action but is not verified,
`handle_confirmation` raises the structured `VerificationRequiredError`
instead of producing a chat reply, so no state update and no action
execution occur. -/
theorem unverified_confirmation_fatal (blockCardFn : String → String → String)
    (st : AgentState) (pending : PendingAction)
    (hp : st.pending_action = some pending) (hv : st.verified = false) :
    handle_confirmation blockCardFn st = .error .verificationRequired := by
  simp [handle_confirmation, hp, hv]

/-- Witness for `unverified_confirmation_fatal` at a concrete unverified
state with a pending block-card action. -/
theorem unverified_confirmation_fatal_witness :
    handle_confirmation (fun _ _ => "Card blocked.")
      { verified := false,
        pending_action := some ⟨"block_card", "CARD_001", "lost", "block your debit card"⟩,
        messages := [⟨Role.human, "yes"⟩] }
      = .error .verificationRequired :=
  unverified_confirmation_fatal (fun _ _ => "Card blocked.") _
    ⟨"block_card", "CARD_001", "lost", "block your debit card"⟩ rfl rfl

/-- C2: the two-turn confirmation protocol.  On the turn that just set the
pending action (`asked_for_confirmation`), `should_confirm` skips the
confirmation node, so the input is never read as a confirmation reply; on a
later turn with `awaiting_confirmation` already true it routes to the node,
where an affirmative reply executes the action and clears `pending_action`,
a negative (non-affirmative) reply cancels and clears it without executing,
and any other reply leaves `pending_action` and `awaiting_confirmation`
set, re-prompting with the pending action description. -/
theorem confirmation_two_turn_protocol (blockCardFn : String → String → String)
    (st : AgentState) (pending : PendingAction)
    (hp : st.pending_action = some pending)
    (htype : pending.type_ = "block_card" ∨ pending.type_ = "close_account")
    (hv : st.verified = true) :
    (st.metadata.asked_for_confirmation = true → should_confirm st = .execute) ∧
    (st.metadata.asked_for_confirmation = false →
      st.metadata.awaiting_confirmation = true → should_confirm st = .confirm) ∧
    (affirmWords.any (fun w => isSubstr w (toLowerStr (lastHumanContent st.messages))) = true →
      ∃ st2, handle_confirmation blockCardFn st = .ok (st2, .executed) ∧
        st2.pending_action = none ∧ st2.metadata.awaiting_confirmation = false) ∧
    (affirmWords.any (fun w => isSubstr w (toLowerStr (lastHumanContent st.messages))) = false →
      negativeWords.any (fun w => isSubstr w (toLowerStr (lastHumanContent st.messages))) = true →
      ∃ st2, handle_confirmation blockCardFn st = .ok (st2, .cancelled) ∧
        st2.pending_action = none ∧ st2.metadata.awaiting_confirmation = false) ∧
    (affirmWords.any (fun w => isSubstr w (toLowerStr (lastHumanContent st.messages))) = false →
      negativeWords.any (fun w => isSubstr w (toLowerStr (lastHumanContent st.messages))) = false →
      ∃ st2, handle_confirmation blockCardFn st = .ok (st2, .reprompted) ∧
        st2.pending_action = some pending ∧ st2.metadata.awaiting_confirmation = true ∧
        st2.messages = [⟨Role.ai, repromptText pending⟩]) := by
  refine ⟨?_, ?_, ?_, ?_, ?_⟩
  · intro hask
    rcases htype with ht | ht <;> simp [should_confirm, hp, ht, hask]
  · intro hask hawait
    rcases htype with ht | ht <;> simp [should_confirm, hp, ht, hask, hawait]
  · intro hA
    refine ⟨{ st with pending_action := none, messages := [⟨Role.ai, if pending.type_ == "block_card" then blockCardFn pending.card_id pending.reason else "Action completed successfully."⟩], metadata := { st.metadata with awaiting_confirmation := false, asked_for_confirmation := false } }, ?_, rfl, rfl⟩
    simp [handle_confirmation, hp, hv, hA]
  · intro hA hN
    refine ⟨{ st with pending_action := none, messages := [⟨Role.ai, cancelText pending⟩], metadata := { st.metadata with awaiting_confirmation := false, asked_for_confirmation := false } }, ?_, rfl, rfl⟩
    simp [handle_confirmation, hp, hv, hA, hN]
  · intro hA hN
    refine ⟨{ st with messages := [⟨Role.ai, repromptText pending⟩], metadata := { st.metadata with awaiting_confirmation := true, asked_for_confirmation := false } }, ?_, by simp [hp], rfl, rfl⟩
    simp [handle_confirmation, hp, hv, hA, hN]

/-- Witness for `confirmation_two_turn_protocol` at concrete awaiting
states whose latest human replies are `yes`, `no` and `maybe`. -/
theorem confirmation_two_turn_protocol_witness :
    should_confirm
      { verified := true,
        pending_action := some ⟨"block_card", "CARD_001", "lost", "block your debit card"⟩,
        messages := [⟨Role.human, "yes"⟩],
        metadata := { awaiting_confirmation := true } } = .confirm ∧
    (∃ st2, handle_confirmation (fun _ _ => "Card blocked.")
        { verified := true,
          pending_action := some ⟨"block_card", "CARD_001", "lost", "block your debit card"⟩,
          messages := [⟨Role.human, "yes"⟩],
          metadata := { awaiting_confirmation := true } } = .ok (st2, .executed) ∧
      st2.pending_action = none ∧ st2.metadata.awaiting_confirmation = false) ∧
    (∃ st2, handle_confirmation (fun _ _ => "Card blocked.")
        { verified := true,
          pending_action := some ⟨"block_card", "CARD_001", "lost", "block your debit card"⟩,
          messages := [⟨Role.human, "no"⟩],
          metadata := { awaiting_confirmation := true } } = .ok (st2, .cancelled) ∧
      st2.pending_action = none ∧ st2.metadata.awaiting_confirmation = false) ∧
    (∃ st2, handle_confirmation (fun _ _ => "Card blocked.")
        { verified := true,
          pending_action := some ⟨"block_card", "CARD_001", "lost", "block your debit card"⟩,
          messages := [⟨Role.human, "maybe"⟩],
          metadata := { awaiting_confirmation := true } } = .ok (st2, .reprompted) ∧
      st2.pending_action = some ⟨"block_card", "CARD_001", "lost", "block your debit card"⟩ ∧
      st2.metadata.awaiting_confirmation = true ∧
      st2.messages = [⟨Role.ai, repromptText ⟨"block_card", "CARD_001", "lost", "block your debit card"⟩⟩]) := by
  have hy := confirmation_two_turn_protocol (fun _ _ => "Card blocked.")
    { verified := true,
      pending_action := some ⟨"block_card", "CARD_001", "lost", "block your debit card"⟩,
      messages := [⟨Role.human, "yes"⟩],
      metadata := { awaiting_confirmation := true } }
    ⟨"block_card", "CARD_001", "lost", "block your debit card"⟩ rfl (Or.inl rfl) rfl
  have hn := confirmation_two_turn_protocol (fun _ _ => "Card blocked.")
    { verified := true,
      pending_action := some ⟨"block_card", "CARD_001", "lost", "block your debit card"⟩,
      messages := [⟨Role.human, "no"⟩],
      metadata := { awaiting_confirmation := true } }
    ⟨"block_card", "CARD_001", "lost", "block your debit card"⟩ rfl (Or.inl rfl) rfl
  have hm := confirmation_two_turn_protocol (fun _ _ => "Card blocked.")
    { verified := true,
      pending_action := some ⟨"block_card", "CARD_001", "lost", "block your debit card"⟩,
      messages := [⟨Role.human, "maybe"⟩],
      metadata := { awaiting_confirmation := true } }
    ⟨"block_card", "CARD_001", "lost", "block your debit card"⟩ rfl (Or.inl rfl) rfl
  refine ⟨hy.2.1 rfl rfl, hy.2.2.1 (by decide), hn.2.2.2.1 (by decide) (by decide), ?_⟩
  obtain ⟨st2, he, hpend, hawait, hmsg⟩ := hm.2.2.2.2 (by decide) (by decide)
  exact ⟨st2, he, hpend, hawait, hmsg⟩

/-- C6: the credential-extractor reference vectors.  Labeled digits, spoken
numbers, labeled-PIN truncation to four digits, and the no-credential case
evaluate exactly as specified. -/
theorem extract_credentials_reference_vectors :
    extract_credentials "my id is 1 and pin is 1000" = (some "1", some "1000") ∧
    extract_credentials "id is one and pin is one zero zero zero" = (some "1", some "1000") ∧
    extract_credentials "id 10 pin 123456" = (some "10", some "1234") ∧
    extract_credentials "hello how are you" = (none, none) := by
  exact ⟨by decide, by decide, by decide, by decide⟩

/-- C7 counterexample: sticky routing does not cover small-talk turns.  With
`current_flow = "account_servicing"` already set, no force-reroute flag and
an utterance (`hello`) containing no topic-change phrase, `route_intent`
still resets `current_flow` to `None` (the greeting small-talk branch runs
before the sticky-flow check), for any external classifier. -/
theorem sticky_routing_small_talk_reroutes :
    topicChangeKeywords.any
      (fun kw => isSubstr kw (pyStrip (toLowerStr "hello"))) = false ∧
    ({ messages := [⟨Role.human, "hello"⟩], current_flow := some "account_servicing" }
      : AgentState).metadata.force_reroute = false ∧
    (route_intent (fun _ => "")
      { messages := [⟨Role.human, "hello"⟩],
        current_flow := some "account_servicing" }).current_flow = none := by
  decide

/-- C7 amended: sticky routing holds for non-small-talk turns.  If the
session already has a `current_flow`, no topic-change phrase occurs in the
lowered, stripped utterance, no forced reroute is set, and the turn is not
classified as small talk, then `route_intent` returns the state unchanged —
in particular it does not consult the external classifier (the result is
the same for every classifier). -/
theorem sticky_routing_non_small_talk (llmResp : String → String) (st : AgentState)
    (m : Message) (f : String)
    (hm : (st.messages.filter (fun x => x.role == Role.human)).getLast? = some m)
    (hflow : st.current_flow = some f)
    (hforce : st.metadata.force_reroute = false)
    (htc : topicChangeKeywords.any
      (fun kw => isSubstr kw (pyStrip (toLowerStr m.content))) = false)
    (hst : smallTalkDetected (pyStrip (toLowerStr m.content)) = false) :
    route_intent llmResp st = st := by
  cases hkw : intentKeywords.any (fun kw => isSubstr kw (pyStrip (toLowerStr m.content))) with
  | false =>
    cases hdig : (pyStrip (toLowerStr m.content)).data.any Char.isDigit with
    | false =>
      simp only [smallTalkDetected, hkw, hdig] at hst
      simp only [Bool.not_false, Bool.and_self, Bool.true_and, Bool.or_eq_false_iff] at hst
      obtain ⟨⟨⟨⟨hg, ht⟩, hy⟩, hh⟩, hi⟩ := hst
      simp only [route_intent, hm]
      simp [hkw, hdig, hg, ht, hy, hh, hi, hflow, hforce, htc]
    | true =>
      simp only [route_intent, hm]
      simp [hdig, hflow, hforce, htc]
  | true =>
    simp only [route_intent, hm]
    simp [hkw, hflow, hforce, htc]

/-- Witness for `sticky_routing_non_small_talk`: an established
`account_servicing` flow and a follow-up utterance containing the `card`
keyword but no topic-change phrase leaves the flow unchanged. -/
theorem sticky_routing_non_small_talk_witness :
    route_intent (fun _ => "card_issues")
      { messages := [⟨Role.human, "what about my card"⟩],
        current_flow := some "account_servicing" }
      = { messages := [⟨Role.human, "what about my card"⟩],
          current_flow := some "account_servicing" } :=
  sticky_routing_non_small_talk (fun _ => "card_issues")
    { messages := [⟨Role.human, "what about my card"⟩],
      current_flow := some "account_servicing" }
    ⟨Role.human, "what about my card"⟩ "account_servicing"
    (by decide) rfl rfl (by decide) (by decide)

/-! ## C10: `redact_pin` leaves no standalone 4-digit group -/

/-- Digits are word characters. -/
theorem isWordChar_of_isDigit (c : Char) (h : c.isDigit = true) : isWordChar c = true := by
  simp [isWordChar, Char.isAlphanum, h]

/-- Unfolding equation: the detector checks a match at the head and recurses
one position. -/
theorem hasStandalone4Aux_cons (prev : Option Char) (c : Char) (l : List Char) :
    hasStandalone4Aux prev (c :: l)
      = (startsStandalone4 prev (c :: l) || hasStandalone4Aux (some c) l) := by
  match l with
  | [] => rfl
  | [_] => rfl
  | [_, _] => rfl
  | _ :: _ :: _ :: _ => rfl

/-- No match at the head without a word boundary before it. -/
theorem starts_false_bdry (prev : Option Char) (l : List Char) (h : bdry prev = false) :
    startsStandalone4 prev l = false := by
  match l with
  | [] => rfl
  | [_] => rfl
  | [_, _] => rfl
  | [_, _, _] => rfl
  | _ :: _ :: _ :: _ :: _ => simp [startsStandalone4, h]

/-- No match at the head when the first character is not a digit. -/
theorem starts_false_nd1 (prev : Option Char) (c1 : Char) (l : List Char)
    (h : c1.isDigit = false) : startsStandalone4 prev (c1 :: l) = false := by
  match l with
  | [] => rfl
  | [_] => rfl
  | [_, _] => rfl
  | _ :: _ :: _ :: _ => simp [startsStandalone4, h]

/-- No match at the head when the second character is not a digit. -/
theorem starts_false_nd2 (prev : Option Char) (c1 c2 : Char) (l : List Char)
    (h : c2.isDigit = false) : startsStandalone4 prev (c1 :: c2 :: l) = false := by
  match l with
  | [] => rfl
  | [_] => rfl
  | _ :: _ :: _ => simp [startsStandalone4, h]

/-- No match at the head when the third character is not a digit. -/
theorem starts_false_nd3 (prev : Option Char) (c1 c2 c3 : Char) (l : List Char)
    (h : c3.isDigit = false) : startsStandalone4 prev (c1 :: c2 :: c3 :: l) = false := by
  match l with
  | [] => rfl
  | _ :: _ => simp [startsStandalone4, h]

/-- No match at the head when the fourth character is not a digit. -/
theorem starts_false_nd4 (prev : Option Char) (c1 c2 c3 c4 : Char) (l : List Char)
    (h : c4.isDigit = false) : startsStandalone4 prev (c1 :: c2 :: c3 :: c4 :: l) = false := by
  simp [startsStandalone4, h]

/-- No match at the head when a word character follows the four digits. -/
theorem starts_false_word5 (prev : Option Char) (c1 c2 c3 c4 e : Char) (l : List Char)
    (h : isWordChar e = true) :
    startsStandalone4 prev (c1 :: c2 :: c3 :: c4 :: e :: l) = false := by
  simp [startsStandalone4, headNonWord, h]

/-- The redactor emits a non-digit head unchanged. -/
theorem redactPinAux_cons_nondigit (prev : Option Char) (c : Char) (l : List Char)
    (h : c.isDigit = false) :
    redactPinAux prev (c :: l) = c :: redactPinAux (some c) l := by
  match l with
  | [] => rfl
  | [_] => rfl
  | [_, _] => rfl
  | _ :: _ :: _ :: _ => simp [redactPinAux, h]

/-- The redactor emits the head unchanged when the previous character is a
word character (no boundary, so no match can start here). -/
theorem redactPinAux_cons_wordPrev (p c : Char) (l : List Char)
    (h : isWordChar p = true) :
    redactPinAux (some p) (c :: l) = c :: redactPinAux (some c) l := by
  match l with
  | [] => rfl
  | [_] => rfl
  | [_, _] => rfl
  | _ :: _ :: _ :: _ => simp [redactPinAux, bdry, h]

/-- Core induction: scanning the output of the PIN redactor (with the same
initial boundary context) never finds a standalone 4-digit group. -/
theorem redactPin_no_standalone :
    ∀ (n : Nat) (l : List Char) (prev : Option Char),
      l.length ≤ n → hasStandalone4Aux prev (redactPinAux prev l) = false := by
  intro n
  induction n with
  | zero =>
    intro l prev hl
    have hnil : l = [] := List.eq_nil_of_length_eq_zero (Nat.le_zero.mp hl)
    subst hnil
    rfl
  | succ n ih =>
    intro l prev hl
    match l with
    | [] => rfl
    | [_] => rfl
    | [_, _] => rfl
    | [_, _, _] => rfl
    | c1 :: c2 :: c3 :: c4 :: rest =>
      by_cases hcond : (bdry prev && c1.isDigit && c2.isDigit && c3.isDigit && c4.isDigit
          && headNonWord rest) = true
      · -- the four digits are replaced by stars
        have hred : redactPinAux prev (c1 :: c2 :: c3 :: c4 :: rest)
            = '*' :: '*' :: '*' :: '*' :: redactPinAux (some c4) rest := by
          simp [redactPinAux, hcond]
        rw [hred, hasStandalone4Aux_cons, hasStandalone4Aux_cons, hasStandalone4Aux_cons,
          hasStandalone4Aux_cons]
        rw [starts_false_nd1 _ _ _ (by decide), starts_false_nd1 _ _ _ (by decide),
          starts_false_nd1 _ _ _ (by decide), starts_false_nd1 _ _ _ (by decide)]
        simp only [Bool.false_or]
        have hnw : headNonWord rest = true := by
          simp only [Bool.and_eq_true] at hcond
          exact hcond.2
        match rest, hnw with
        | [], _ => rfl
        | e :: r2, hnw =>
          have hwe : isWordChar e = false := by simpa [headNonWord] using hnw
          have hed : e.isDigit = false := by
            cases hde : e.isDigit
            · rfl
            · exact absurd (isWordChar_of_isDigit e hde) (by simp [hwe])
          rw [redactPinAux_cons_nondigit _ _ _ hed, hasStandalone4Aux_cons,
            starts_false_nd1 _ _ _ hed]
          simp only [Bool.false_or]
          exact ih r2 (some e) (by simp at hl; omega)
      · -- no replacement: the head is emitted unchanged
        have hred : redactPinAux prev (c1 :: c2 :: c3 :: c4 :: rest)
            = c1 :: redactPinAux (some c1) (c2 :: c3 :: c4 :: rest) := by
          simp only [redactPinAux]
          rw [if_neg (by simpa using hcond)]
        rw [hred, hasStandalone4Aux_cons,
          ih (c2 :: c3 :: c4 :: rest) (some c1) (by simp at hl ⊢; omega), Bool.or_false]
        by_cases hb : bdry prev = true
        · by_cases hd1 : c1.isDigit = true
          · have hw1 := isWordChar_of_isDigit c1 hd1
            rw [redactPinAux_cons_wordPrev _ _ _ hw1]
            by_cases hd2 : c2.isDigit = true
            · have hw2 := isWordChar_of_isDigit c2 hd2
              rw [redactPinAux_cons_wordPrev _ _ _ hw2]
              by_cases hd3 : c3.isDigit = true
              · have hw3 := isWordChar_of_isDigit c3 hd3
                rw [redactPinAux_cons_wordPrev _ _ _ hw3]
                by_cases hd4 : c4.isDigit = true
                · have hw4 := isWordChar_of_isDigit c4 hd4
                  have hnw : headNonWord rest = false := by
                    cases hhn : headNonWord rest
                    · rfl
                    · exact absurd (by simp [hb, hd1, hd2, hd3, hd4, hhn]) hcond
                  match rest, hnw with
                  | e :: r2, hnw =>
                    have hwe : isWordChar e = true := by simpa [headNonWord] using hnw
                    rw [redactPinAux_cons_wordPrev _ _ _ hw4]
                    exact starts_false_word5 _ _ _ _ _ _ _ hwe
                · exact starts_false_nd4 _ _ _ _ _ _ (by simpa using hd4)
              · exact starts_false_nd3 _ _ _ _ _ (by simpa using hd3)
            · exact starts_false_nd2 _ _ _ _ (by simpa using hd2)
          · exact starts_false_nd1 _ _ _ (by simpa using hd1)
        · exact starts_false_bdry _ _ (by simpa using hb)

/-- C10 amended: for every input string the output of `redact_pin` contains
no standalone four-digit group (no word-boundary-delimited run of exactly
four digits survives).  The same does not extend to the full
`redact_sensitive_text` pipeline, whose final `mask_long_numbers` pass can
re-expose the last four digits of an 8-16 digit number as a standalone
token. -/
theorem redact_pin_no_standalone_pin (s : String) :
    hasStandalone4 (redact_pin s) = false :=
  redactPin_no_standalone s.data.length s.data none le_rfl

/-- C10 counterexample: `redact_sensitive_text "12345678" = "****5678"`,
which contains the standalone four-digit group `5678` (re-exposed by
`mask_long_numbers`), so the sanitized text can contain a raw standalone
4-digit token. -/
theorem redact_sensitive_text_retains_four_digits :
    redact_sensitive_text "12345678" = "****5678" ∧
    hasStandalone4 (redact_sensitive_text "12345678") = true := by
  decide

/-! ## C8: flow preservation through the auth interruption -/

/-- C8 counterexample: restoration depends on the history length.  A session
that is verified, still carries `original_intent = "card_issues"`, and whose
conversation history holds six messages does not get its flow restored on
the next turn: `_run_agent` only restores when the (truncated) history holds
at most four messages, so `current_flow` stays `None` and the marker is not
cleared. -/
theorem flow_restoration_fails_long_history :
    ({ session_id := "s", verified := true, original_intent := some "card_issues",
        conversation_history := List.replicate 6 ⟨Role.human, "m"⟩ } : SessionState).verified
        = true ∧
    (build_turn_state (fun x => x) 100
      { session_id := "s", verified := true, original_intent := some "card_issues",
        conversation_history := List.replicate 6 ⟨Role.human, "m"⟩ }
      "hi" {}).1.current_flow = none ∧
    (build_turn_state (fun x => x) 100
      { session_id := "s", verified := true, original_intent := some "card_issues",
        conversation_history := List.replicate 6 ⟨Role.human, "m"⟩ }
      "hi" {}).1.metadata.lock_flow = false ∧
    (build_turn_state (fun x => x) 100
      { session_id := "s", verified := true, original_intent := some "card_issues",
        conversation_history := List.replicate 6 ⟨Role.human, "m"⟩ }
      "hi" {}).2.original_intent = some "card_issues" := by
  decide

/-- C8 amended: flow preservation through authentication works only within
a short history window.  When the auth gate interrupts a classified flow
(the reply asks for both `customer id` and `pin` while the session is
unverified), the classified flow is saved as `original_intent`; on a later
turn with the session verified and the marker set, the flow is restored
(with routing locked) and the marker cleared only when the truncated
conversation history holds at most four messages; with a longer history the
state is built without restoration and the session is left untouched. -/
theorem flow_restoration_window (hashId : String → String) (now : Nat)
    (session : SessionState) (input : String) (auth : AuthOutcome) (f : String) :
    (∀ (resultFlow : Option String) (lastMsg : String) (g : String),
      isSubstr "customer id" (toLowerStr lastMsg) = true →
      isSubstr "pin" (toLowerStr lastMsg) = true →
      resultFlow = some g → session.verified = false →
      (save_original_intent now session resultFlow lastMsg).original_intent = some g) ∧
    (session.original_intent = some f → session.verified = true →
      session.conversation_history.length ≤ 4 →
      (build_turn_state hashId now session input auth).1.current_flow = some f ∧
      (build_turn_state hashId now session input auth).1.metadata.lock_flow = true ∧
      (build_turn_state hashId now session input auth).2.original_intent = none) ∧
    (session.conversation_history.length > 4 →
      (build_turn_state hashId now session input auth).1.current_flow
          = session.current_flow ∧
      (build_turn_state hashId now session input auth).2 = session) := by
  refine ⟨?_, ?_, ?_⟩
  · intro resultFlow lastMsg g hc hpn hrf hv
    simp [save_original_intent, hc, hpn, hrf, hv]
  · intro ho hv hlen
    have h10 : ¬(session.conversation_history.length > MAX_HISTORY_MESSAGES) := by
      simp only [MAX_HISTORY_MESSAGES]
      omega
    simp [build_turn_state, ho, hv, hlen, h10]
  · intro hlen
    by_cases h10 : session.conversation_history.length > MAX_HISTORY_MESSAGES
    · have hlen2 : ¬(session.conversation_history.length
          ≤ 4 + (session.conversation_history.length - MAX_HISTORY_MESSAGES)) := by
        simp only [MAX_HISTORY_MESSAGES] at h10 ⊢
        omega
      simp [build_turn_state, h10, hlen2]
    · have hlen2 : ¬(session.conversation_history.length ≤ 4) := by omega
      simp [build_turn_state, h10, hlen2]

/-- Witness for `flow_restoration_window`: the interrupting reply saves the
flow, and a verified session with a two-message history gets it restored
with the marker cleared. -/
theorem flow_restoration_window_witness :
    (save_original_intent 50 { session_id := "s" } (some "card_issues")
      "Please provide your Customer ID and your 4-digit PIN.").original_intent
      = some "card_issues" ∧
    (build_turn_state (fun x => x) 100
      { session_id := "s", verified := true, original_intent := some "card_issues",
        conversation_history := [⟨Role.human, "block my card"⟩, ⟨Role.ai, "need auth"⟩] }
      "ok" {}).1.current_flow = some "card_issues" ∧
    (build_turn_state (fun x => x) 100
      { session_id := "s", verified := true, original_intent := some "card_issues",
        conversation_history := [⟨Role.human, "block my card"⟩, ⟨Role.ai, "need auth"⟩] }
      "ok" {}).1.metadata.lock_flow = true ∧
    (build_turn_state (fun x => x) 100
      { session_id := "s", verified := true, original_intent := some "card_issues",
        conversation_history := [⟨Role.human, "block my card"⟩, ⟨Role.ai, "need auth"⟩] }
      "ok" {}).2.original_intent = none := by
  have h1 := (flow_restoration_window (fun x => x) 50 { session_id := "s" } "ok" {}
    "card_issues").1 (some "card_issues")
    "Please provide your Customer ID and your 4-digit PIN." "card_issues"
    (by decide) (by decide) rfl rfl
  have h2 := (flow_restoration_window (fun x => x) 100
    { session_id := "s", verified := true, original_intent := some "card_issues",
      conversation_history := [⟨Role.human, "block my card"⟩, ⟨Role.ai, "need auth"⟩] }
    "ok" {} "card_issues").2.1 rfl rfl (by decide)
  exact ⟨h1, h2.1, h2.2.1, h2.2.2⟩

/-! ## C9: idle eviction from the session store -/

/-- With distinct keys, two entries sharing a key are the same entry. -/
theorem key_unique {l : List (String × SessionState)} (hnd : (l.map Prod.fst).Nodup)
    {x y : String × SessionState} (hx : x ∈ l) (hy : y ∈ l) (hk : x.1 = y.1) : x = y := by
  induction l with
  | nil => cases hx
  | cons a t ih =>
    simp only [List.map_cons, List.nodup_cons] at hnd
    rcases List.mem_cons.mp hx with rfl | hx2
    · rcases List.mem_cons.mp hy with rfl | hy2
      · rfl
      · exact absurd (hk ▸ List.mem_map_of_mem Prod.fst hy2) hnd.1
    · rcases List.mem_cons.mp hy with rfl | hy2
      · exact absurd (hk ▸ List.mem_map_of_mem Prod.fst hx2) hnd.1
      · exact ih hnd.2 hx2 hy2

/-- Filtering keeps the first entry found for a key when that entry passes
the filter, provided the key appears only once. -/
theorem find?_filter_keep {l : List (String × SessionState)}
    {pr : String × SessionState} (keep : String × SessionState → Bool)
    (hfind : l.find? (fun p => p.1 == pr.1) = some pr) (hkeep : keep pr = true)
    (huniq : ∀ x ∈ l, x.1 = pr.1 → x = pr) :
    (l.filter keep).find? (fun p => p.1 == pr.1) = some pr := by
  induction l with
  | nil => simp at hfind
  | cons a t ih =>
    by_cases ha : (a.1 == pr.1) = true
    · have h1 : List.find? (fun p => p.1 == pr.1) (a :: t) = some a :=
        List.find?_cons_of_pos t ha
      rw [h1] at hfind
      have hae : a = pr := Option.some.inj hfind
      subst hae
      rw [List.filter_cons_of_pos hkeep]
      exact List.find?_cons_of_pos _ (by simp)
    · have h1 : List.find? (fun p => p.1 == pr.1) (a :: t) =
          List.find? (fun p => p.1 == pr.1) t :=
        List.find?_cons_of_neg t ha
      rw [h1] at hfind
      have ih2 := ih hfind (fun x hx hk => huniq x (List.mem_cons_of_mem _ hx) hk)
      by_cases hk : keep a = true
      · rw [List.filter_cons_of_pos hk]
        have h2 : List.find? (fun p => p.1 == pr.1) (a :: List.filter keep t) =
            List.find? (fun p => p.1 == pr.1) (List.filter keep t) :=
          List.find?_cons_of_neg _ ha
        rw [h2]
        exact ih2
      · rw [List.filter_cons_of_neg (by simpa using hk)]
        exact ih2

/-- Filtering out the unique entry for a key makes lookups for that key
fail. -/
theorem find?_filter_evict {l : List (String × SessionState)}
    {pr : String × SessionState} (keep : String × SessionState → Bool)
    (hmem : pr ∈ l) (hkeep : keep pr = false)
    (huniq : ∀ x ∈ l, x.1 = pr.1 → x = pr) :
    (l.filter keep).find? (fun p => p.1 == pr.1) = none := by
  rw [List.find?_eq_none]
  intro x hx hbeq
  have hx1 : x ∈ l ∧ keep x = true := List.mem_filter.mp hx
  have hxe : x = pr := huniq x hx1.1 (by simpa using hbeq)
  have hx2 := hx1.2
  rw [hxe, hkeep] at hx2
  cases hx2

/-- The evicted and surviving sessions partition the store. -/
theorem filter_length_partition (p : String × SessionState → Bool)
    (l : List (String × SessionState)) :
    (l.filter p).length + (l.filter (fun a => !p a)).length = l.length := by
  induction l with
  | nil => rfl
  | cons a t ih =>
    by_cases h : p a = true <;> simp [List.filter_cons, h] <;> omega

/-- C9: idle eviction.  For a stored session, a sweep at time `now` removes
it exactly when its `last_activity` is older than the configured timeout: a
subsequent `get_session` then returns `none`, while a session within the
timeout is untouched and still retrievable; and the returned count plus the
surviving sessions always account for the whole store. -/
theorem idle_eviction (m : SessionManager) (now : Nat) (sid : String) (s : SessionState)
    (hnd : (m.sessions.map Prod.fst).Nodup)
    (hget : get_session m sid = some s) :
    (isExpired m.session_timeout now s = true →
      get_session (cleanup_expired_sessions m now).1 sid = none) ∧
    (isExpired m.session_timeout now s = false →
      get_session (cleanup_expired_sessions m now).1 sid = some s) ∧
    (cleanup_expired_sessions m now).2 + (cleanup_expired_sessions m now).1.sessions.length
      = m.sessions.length := by
  obtain ⟨pr, hfind, hs⟩ : ∃ pr, m.sessions.find? (fun p => p.1 == sid) = some pr ∧ pr.2 = s := by
    unfold get_session at hget
    cases hf : m.sessions.find? (fun p => p.1 == sid) with
    | none => rw [hf] at hget; simp at hget
    | some pr => rw [hf] at hget; exact ⟨pr, rfl, by simpa using hget⟩
  have hpr1 : pr.1 = sid := by
    have h2 := List.find?_some hfind
    simpa using h2
  subst hpr1
  subst hs
  have hmem : pr ∈ m.sessions := List.mem_of_find?_eq_some hfind
  have huniq : ∀ x ∈ m.sessions, x.1 = pr.1 → x = pr :=
    fun x hx hk => key_unique hnd hx hmem hk
  refine ⟨?_, ?_, ?_⟩
  · intro hexp
    have hdrop := find?_filter_evict
      (fun p => !isExpired m.session_timeout now p.2) hmem (by simp [hexp]) huniq
    simp [get_session, cleanup_expired_sessions, hdrop]
  · intro hexp
    have hkeepr := find?_filter_keep
      (fun p => !isExpired m.session_timeout now p.2) hfind (by simp [hexp]) huniq
    simp [get_session, cleanup_expired_sessions, hkeepr]
  · simpa [cleanup_expired_sessions] using
      filter_length_partition (fun p => isExpired m.session_timeout now p.2) m.sessions

/-- Witness for `idle_eviction` at a concrete two-session store with a
60-second timeout swept at time 100: the stale session is gone, the fresh
one survives, and one session is counted as evicted. -/
theorem idle_eviction_witness :
    get_session (cleanup_expired_sessions
      { sessions := [("a", { session_id := "a", last_activity := 0 }),
                     ("b", { session_id := "b", last_activity := 90 })],
        session_timeout := 60 } 100).1 "a" = none ∧
    get_session (cleanup_expired_sessions
      { sessions := [("a", { session_id := "a", last_activity := 0 }),
                     ("b", { session_id := "b", last_activity := 90 })],
        session_timeout := 60 } 100).1 "b" = some { session_id := "b", last_activity := 90 } ∧
    (cleanup_expired_sessions
      { sessions := [("a", { session_id := "a", last_activity := 0 }),
                     ("b", { session_id := "b", last_activity := 90 })],
        session_timeout := 60 } 100).2 = 1 := by
  have ha := idle_eviction
    { sessions := [("a", { session_id := "a", last_activity := 0 }),
                   ("b", { session_id := "b", last_activity := 90 })],
      session_timeout := 60 } 100 "a" { session_id := "a", last_activity := 0 }
    (by decide) (by decide)
  have hb := idle_eviction
    { sessions := [("a", { session_id := "a", last_activity := 0 }),
                   ("b", { session_id := "b", last_activity := 90 })],
      session_timeout := 60 } 100 "b" { session_id := "b", last_activity := 90 }
    (by decide) (by decide)
  exact ⟨ha.1 (by decide), hb.2.1 (by decide), by decide⟩
